/-
Verification of the face-attendance application (src/app.py) against its
natural-language specification.

Shallow embedding notes:
* Embeddings are modelled as lists of rationals; the external face-embedding
  library (`face_recognition`) is treated as an opaque collaborator, so the
  distance metric and the encoding extractor are parameters of the handlers.
* The Streamlit handlers are modelled as pure functions from their inputs and
  the relevant mutable state (gallery, class-folder registry, worksheet) to a
  result together with the new state and the persisted file contents.
* Remote services (Drive folder creation, the spreadsheet) are modelled as the
  per-class worksheet contents (`Option (List Row)`, `none` meaning
  `WorksheetNotFound`) and a storage factory counted by invocation.
-/
import Mathlib

/-- A face embedding: a fixed-length real-valued vector, modelled over ℚ. -/
abbrev Embedding := List ℚ

/-- Raw captured image bytes (opaque to the core logic). -/
abbrev Image := List Nat

/-- Identity metadata stored with each gallery entry
(`{"name": ..., "student_id": ..., "email": ..., "phone": ...}`, app.py line 110). -/
structure Identity where
  name : String
  student_id : String
  email : String
  phone : String
deriving Repr, DecidableEq, Inhabited

/-- The face gallery: `known_faces` and `known_metadata` (app.py lines 37–44). -/
structure GalleryState where
  known_faces : List Embedding
  known_metadata : List Identity
deriving Repr, DecidableEq, Inhabited

/-- Loading `known_faces.pkl` (app.py lines 37–44): a missing file yields two
empty lists; otherwise the pickled pair is taken as-is. -/
def loadGallery (file : Option GalleryState) : GalleryState :=
  match file with
  | some st => st
  | none => ⟨[], []⟩

/-- Python's `min` over a non-empty list (left fold; `min []` never occurs in
the modelled paths). -/
def pyMin : List ℚ → ℚ
  | [] => 0
  | x :: xs => xs.foldl min x

/-- The fixed acceptance threshold (app.py line 133: `min_distance < 0.45`). -/
def THRESHOLD : ℚ := 45 / 100

/-- Outcome of the attendance (tab 2) face-matching step, one constructor per
user-facing message branch (app.py lines 124–163). -/
inductive MatchResult where
  | noFaceDetected
  | noRegisteredFaces
  | notRecognized
  | accepted (identity : Identity) (min_distance : ℚ)
deriving Repr, DecidableEq

/-- The distances computed by `face_recognition.face_distance(known_faces,
face_encoding)` (app.py line 130), with the library's metric abstracted as
`dist`. -/
def faceDistances (dist : Embedding → Embedding → ℚ) (known_faces : List Embedding)
    (face_encoding : Embedding) : List ℚ :=
  known_faces.map (fun k => dist k face_encoding)

/-- The matching logic of the tab-2 attendance handler (app.py lines 122–134,
162–163): zero encodings → "No face detected"; empty gallery → "No registered
faces found"; otherwise take `encodings[0]`, compute all distances, take the
minimum and its first index (`distances.tolist().index(min_distance)`), and
accept iff `min_distance < 0.45`. -/
def tab2Match (dist : Embedding → Embedding → ℚ) (known_faces : List Embedding)
    (known_metadata : List Identity) (encodings : List Embedding) : MatchResult :=
  match encodings with
  | [] => .noFaceDetected
  | face_encoding :: _ =>
    if known_faces = [] then .noRegisteredFaces
    else
      let distances := faceDistances dist known_faces face_encoding
      let min_distance := pyMin distances
      let best_match_index := distances.indexOf min_distance
      if min_distance < THRESHOLD then
        .accepted (known_metadata.getD best_match_index default) min_distance
      else
        .notRecognized

/- ### Helper lemmas about `pyMin` and `indexOf` -/

theorem foldl_min_le_init (l : List ℚ) (a : ℚ) : l.foldl min a ≤ a := by
  induction l generalizing a with
  | nil => exact le_refl a
  | cons x xs ih =>
    calc xs.foldl min (min a x) ≤ min a x := ih (min a x)
    _ ≤ a := min_le_left a x

theorem foldl_min_le_mem (l : List ℚ) (a : ℚ) (y : ℚ) (hy : y ∈ l) :
    l.foldl min a ≤ y := by
  induction l generalizing a with
  | nil => cases hy
  | cons x xs ih =>
    rcases List.mem_cons.mp hy with h | h
    · subst h
      calc xs.foldl min (min a y) ≤ min a y := foldl_min_le_init xs (min a y)
      _ ≤ y := min_le_right a y
    · exact ih (min a x) h

theorem foldl_min_mem (l : List ℚ) (a : ℚ) : l.foldl min a = a ∨ l.foldl min a ∈ l := by
  induction l generalizing a with
  | nil => exact Or.inl rfl
  | cons x xs ih =>
    rcases ih (min a x) with h | h
    · rcases min_cases a x with ⟨he, _⟩ | ⟨he, _⟩
      · exact Or.inl (by rw [List.foldl_cons, h, he])
      · exact Or.inr (by rw [List.foldl_cons, h, he]; exact List.mem_cons_self x xs)
    · exact Or.inr (List.mem_cons_of_mem x h)

/-- `pyMin` of a non-empty list is an element of the list. -/
theorem pyMin_mem (l : List ℚ) (h : l ≠ []) : pyMin l ∈ l := by
  cases l with
  | nil => exact absurd rfl h
  | cons x xs =>
    rcases foldl_min_mem xs x with he | he
    · rw [pyMin, he]; exact List.mem_cons_self x xs
    · rw [pyMin]; exact List.mem_cons_of_mem x he

/-- `pyMin` of a non-empty list is a lower bound of the list. -/
theorem pyMin_le (l : List ℚ) (y : ℚ) (hy : y ∈ l) : pyMin l ≤ y := by
  cases l with
  | nil => cases hy
  | cons x xs =>
    rcases List.mem_cons.mp hy with h | h
    · subst h; exact foldl_min_le_init xs y
    · exact foldl_min_le_mem xs x y h

/-- Every position strictly before `l.indexOf a` holds a value different
from `a`. -/
theorem getD_ne_of_lt_indexOf (l : List ℚ) (a d : ℚ) (k : ℕ)
    (hk : k < l.indexOf a) : l.getD k d ≠ a := by
  induction l generalizing k with
  | nil => simp [List.indexOf] at hk
  | cons x xs ih =>
    by_cases hxa : x = a
    · rw [hxa, List.indexOf_cons_self] at hk; cases hk
    · rw [List.indexOf_cons_ne _ hxa] at hk
      cases k with
      | zero => simpa using hxa
      | succ k =>
        have : k < xs.indexOf a := Nat.lt_of_succ_lt_succ hk
        simpa using ih k this

/-- If `a` occurs at position `i` of `l`, then `l.indexOf a ≤ i`. -/
theorem indexOf_le_of_getD (l : List ℚ) (a d : ℚ) (i : ℕ)
    (h : l.getD i d = a) : l.indexOf a ≤ i := by
  by_contra hlt
  exact getD_ne_of_lt_indexOf l a d i (Nat.lt_of_not_le hlt) h

/-- At position `l.indexOf a` the list holds `a`, provided `a ∈ l`. -/
theorem getD_indexOf_self (l : List ℚ) (a d : ℚ) (ha : a ∈ l) :
    l.getD (l.indexOf a) d = a := by
  have hlt : l.indexOf a < l.length := List.indexOf_lt_length.mpr ha
  rw [List.getD_eq_get l d hlt]
  exact List.indexOf_get hlt

/-- `tab2Match` on a non-empty gallery reduces to the threshold decision. -/
theorem tab2Match_cons (dist : Embedding → Embedding → ℚ) (known_faces : List Embedding)
    (known_metadata : List Identity) (face_encoding : Embedding) (rest : List Embedding)
    (hne : known_faces ≠ []) :
    tab2Match dist known_faces known_metadata (face_encoding :: rest) =
      (if pyMin (faceDistances dist known_faces face_encoding) < THRESHOLD then
        MatchResult.accepted
          (known_metadata.getD
            ((faceDistances dist known_faces face_encoding).indexOf
              (pyMin (faceDistances dist known_faces face_encoding)))
            default)
          (pyMin (faceDistances dist known_faces face_encoding))
      else MatchResult.notRecognized) := by
  simp only [tab2Match, if_neg hne]

/-- C1: on a non-empty gallery, `pyMin` of the distance list is the minimum
distance over all gallery embeddings, the matcher accepts (returning a matched
identity) iff that minimum is strictly below 0.45, and a minimum of exactly
0.45 is rejected with the "Face not recognized" outcome. -/
theorem matcher_threshold_strict (dist : Embedding → Embedding → ℚ)
    (known_faces : List Embedding) (known_metadata : List Identity)
    (face_encoding : Embedding) (rest : List Embedding)
    (hne : known_faces ≠ []) :
    (pyMin (faceDistances dist known_faces face_encoding)
        ∈ faceDistances dist known_faces face_encoding
      ∧ ∀ d ∈ faceDistances dist known_faces face_encoding,
          pyMin (faceDistances dist known_faces face_encoding) ≤ d)
    ∧ ((∃ identity min_distance,
          tab2Match dist known_faces known_metadata (face_encoding :: rest)
            = MatchResult.accepted identity min_distance)
        ↔ pyMin (faceDistances dist known_faces face_encoding) < 45 / 100)
    ∧ (pyMin (faceDistances dist known_faces face_encoding) = 45 / 100 →
        tab2Match dist known_faces known_metadata (face_encoding :: rest)
          = MatchResult.notRecognized) := by
  have hD : faceDistances dist known_faces face_encoding ≠ [] := by
    simpa [faceDistances] using hne
  have hthr : THRESHOLD = 45 / 100 := rfl
  refine ⟨⟨pyMin_mem _ hD, fun d hd => pyMin_le _ d hd⟩, ?_, ?_⟩
  · rw [tab2Match_cons dist known_faces known_metadata face_encoding rest hne]
    constructor
    · rintro ⟨identity, min_distance, h⟩
      by_cases hlt : pyMin (faceDistances dist known_faces face_encoding) < THRESHOLD
      · rwa [hthr] at hlt
      · rw [if_neg hlt] at h
        cases h
    · intro hlt
      rw [if_pos (by rwa [hthr])]
      exact ⟨_, _, rfl⟩
  · intro heq
    rw [tab2Match_cons dist known_faces known_metadata face_encoding rest hne,
      if_neg (by rw [heq, hthr]; exact lt_irrefl _)]

/-- Witness for C1: a single-entry gallery whose distance to the query is
exactly 0.45 is rejected. -/
theorem matcher_threshold_strict_witness :
    tab2Match (fun _ _ => 45 / 100) [[0]] [default] ([0] :: []) = MatchResult.notRecognized :=
  (matcher_threshold_strict (fun _ _ => 45 / 100) [[0]] [default] [0] []
    (by simp)).2.2 (by simp [faceDistances, pyMin])

/-- C2: against an empty gallery (with at least one detected face) the matcher
returns the "No registered faces found" outcome for every distance function —
so no distance computation influences the result — and that outcome is distinct
from the below-threshold "Face not recognized" outcome. -/
theorem match_empty_gallery (dist : Embedding → Embedding → ℚ)
    (known_metadata : List Identity) (face_encoding : Embedding) (rest : List Embedding) :
    tab2Match dist [] known_metadata (face_encoding :: rest) = MatchResult.noRegisteredFaces
    ∧ MatchResult.noRegisteredFaces ≠ MatchResult.notRecognized := by
  exact ⟨by simp [tab2Match], by simp⟩

/-- C6: when the minimum distance is attained at two (or more) positions `i < j`
and is below the threshold, the matcher returns the identity at the first
position attaining the minimum — the stable argmin over insertion order. -/
theorem matcher_stable_argmin (dist : Embedding → Embedding → ℚ)
    (known_faces : List Embedding) (known_metadata : List Identity)
    (face_encoding : Embedding) (rest : List Embedding) (i j : ℕ)
    (hne : known_faces ≠ []) (hij : i < j) (hj : j < known_faces.length)
    (hi_min : (faceDistances dist known_faces face_encoding).getD i 0
      = pyMin (faceDistances dist known_faces face_encoding))
    (hj_min : (faceDistances dist known_faces face_encoding).getD j 0
      = pyMin (faceDistances dist known_faces face_encoding))
    (hacc : pyMin (faceDistances dist known_faces face_encoding) < 45 / 100) :
    ∃ b : ℕ,
      tab2Match dist known_faces known_metadata (face_encoding :: rest)
        = MatchResult.accepted (known_metadata.getD b default)
            (pyMin (faceDistances dist known_faces face_encoding))
      ∧ b ≤ i
      ∧ (faceDistances dist known_faces face_encoding).getD b 0
          = pyMin (faceDistances dist known_faces face_encoding)
      ∧ ∀ k, k < b → (faceDistances dist known_faces face_encoding).getD k 0
          ≠ pyMin (faceDistances dist known_faces face_encoding) := by
  have hD : faceDistances dist known_faces face_encoding ≠ [] := by
    simpa [faceDistances] using hne
  refine ⟨(faceDistances dist known_faces face_encoding).indexOf
    (pyMin (faceDistances dist known_faces face_encoding)), ?_, ?_, ?_, ?_⟩
  · rw [tab2Match_cons dist known_faces known_metadata face_encoding rest hne,
      if_pos (show _ < THRESHOLD from hacc)]
  · exact indexOf_le_of_getD _ _ 0 i hi_min
  · exact getD_indexOf_self _ _ 0 (pyMin_mem _ hD)
  · exact fun k hk => getD_ne_of_lt_indexOf _ _ 0 k hk

/-- Witness for C6: two gallery entries at equal distance 1/10 from the query;
the first one (identity "A") is returned. -/
theorem matcher_stable_argmin_witness :
    tab2Match (fun k _ => k.headI) [[1 / 10], [1 / 10]]
        [⟨"A", "1", "a@b.c", "0123456789"⟩, ⟨"B", "2", "b@b.c", "0123456789"⟩]
        ([0] :: [])
      = MatchResult.accepted ⟨"A", "1", "a@b.c", "0123456789"⟩ (1 / 10) := by
  obtain ⟨b, hb, hbi, -, -⟩ := matcher_stable_argmin (fun k _ => k.headI)
    [[1 / 10], [1 / 10]]
    [⟨"A", "1", "a@b.c", "0123456789"⟩, ⟨"B", "2", "b@b.c", "0123456789"⟩]
    [0] [] 0 1 (by simp) (by norm_num) (by simp) (by simp [faceDistances, pyMin])
    (by simp [faceDistances, pyMin]) (by norm_num [faceDistances, pyMin])
  rw [hb, Nat.le_zero.mp hbi]
  simp [faceDistances, pyMin]

/- ### Registration (tab 1) -/

/-- The tab-1 registration form fields (app.py lines 87–92); `reg_img` is
`none` when no image was captured. -/
structure RegInput where
  reg_name : String
  reg_id : String
  reg_email : String
  reg_phone : String
  reg_img : Option Image
deriving Repr, DecidableEq

/-- Python's `c in s` membership test on a string. -/
def strContains (s : String) (c : Char) : Bool := s.data.contains c

/-- Python's `str.isdigit()`: non-empty and all digit characters. -/
def pyIsdigit (s : String) : Bool := !s.data.isEmpty && s.data.all Char.isDigit

/-- Outcome message of the registration handler, one constructor per branch
(app.py lines 94–113). -/
inductive RegResult where
  | errorFillFields
  | errorCaptureImage
  | errorInvalidEmail
  | errorInvalidPhone
  | errorNoFace
  | success (name : String)
deriving Repr, DecidableEq

/-- Result of one registration interaction: the user-facing result, the new
in-memory gallery, and the contents written to `known_faces.pkl` (`none` when
no dump was executed). -/
structure RegOutcome where
  result : RegResult
  state : GalleryState
  persisted : Option GalleryState
deriving Repr, DecidableEq

/-- The tab-1 registration handler (app.py lines 94–113): validate the four
fields, the captured image, the email shape and the phone shape; extract
encodings via the opaque `face_encodings`; on zero encodings report "No face
detected"; otherwise append `encodings[0]` and the metadata dict to the two
gallery lists and pickle the whole gallery to `known_faces.pkl`. -/
def tab1Register (face_encodings : Image → List Embedding) (st : GalleryState)
    (inp : RegInput) : RegOutcome :=
  if inp.reg_name = "" ∨ inp.reg_id = "" ∨ inp.reg_email = "" ∨ inp.reg_phone = "" then
    ⟨.errorFillFields, st, none⟩
  else
    match inp.reg_img with
    | none => ⟨.errorCaptureImage, st, none⟩
    | some img =>
      if ¬ strContains inp.reg_email '@' ∨ ¬ strContains inp.reg_email '.' then
        ⟨.errorInvalidEmail, st, none⟩
      else if ¬ pyIsdigit inp.reg_phone ∨ inp.reg_phone.length < 10
          ∨ inp.reg_phone.length > 15 then
        ⟨.errorInvalidPhone, st, none⟩
      else
        match face_encodings img with
        | [] => ⟨.errorNoFace, st, none⟩
        | enc :: _ =>
          let st' : GalleryState :=
            ⟨st.known_faces ++ [enc],
             st.known_metadata ++ [⟨inp.reg_name, inp.reg_id, inp.reg_email, inp.reg_phone⟩]⟩
          ⟨.success inp.reg_name, st', some st'⟩

/-- A registration input passing the four form validations of app.py
lines 95–102. -/
def validFields (inp : RegInput) : Prop :=
  inp.reg_name ≠ "" ∧ inp.reg_id ≠ "" ∧ inp.reg_email ≠ "" ∧ inp.reg_phone ≠ ""
  ∧ strContains inp.reg_email '@' = true ∧ strContains inp.reg_email '.' = true
  ∧ pyIsdigit inp.reg_phone = true ∧ 10 ≤ inp.reg_phone.length ∧ inp.reg_phone.length ≤ 15

/-- C3: a valid registration (all four fields well-formed, image captured, a
face detected) appends exactly one entry to each gallery list, the new entry's
identity is exactly the submitted fields, and the whole new gallery is
persisted immediately. -/
theorem register_valid_appends_one (face_encodings : Image → List Embedding)
    (st : GalleryState) (inp : RegInput) (img : Image) (enc : Embedding)
    (rest : List Embedding) (hv : validFields inp) (himg : inp.reg_img = some img)
    (hfe : face_encodings img = enc :: rest) :
    (tab1Register face_encodings st inp).state.known_faces = st.known_faces ++ [enc]
    ∧ (tab1Register face_encodings st inp).state.known_metadata
        = st.known_metadata ++ [⟨inp.reg_name, inp.reg_id, inp.reg_email, inp.reg_phone⟩]
    ∧ (tab1Register face_encodings st inp).state.known_faces.length
        = st.known_faces.length + 1
    ∧ (tab1Register face_encodings st inp).state.known_metadata.length
        = st.known_metadata.length + 1
    ∧ (tab1Register face_encodings st inp).persisted
        = some (tab1Register face_encodings st inp).state
    ∧ (tab1Register face_encodings st inp).result = RegResult.success inp.reg_name := by
  obtain ⟨h1, h2, h3, h4, h5, h6, h7, h8, h9⟩ := hv
  have hreg : tab1Register face_encodings st inp =
      ⟨.success inp.reg_name,
       ⟨st.known_faces ++ [enc],
        st.known_metadata ++ [⟨inp.reg_name, inp.reg_id, inp.reg_email, inp.reg_phone⟩]⟩,
       some ⟨st.known_faces ++ [enc],
        st.known_metadata ++ [⟨inp.reg_name, inp.reg_id, inp.reg_email, inp.reg_phone⟩]⟩⟩ := by
    simp only [tab1Register, himg, hfe]
    rw [if_neg (by simp [h1, h2, h3, h4]), if_neg (by simp [h5, h6]),
      if_neg (by simp [h7]; omega)]
  rw [hreg]
  simp

/-- Witness for C3: registering "Alice" into an empty gallery. -/
theorem register_valid_appends_one_witness :
    (tab1Register (fun _ => [[2]]) ⟨[], []⟩
        ⟨"Alice", "A1", "a@b.c", "0123456789", some [1]⟩).state.known_faces = [] ++ [[2]]
    ∧ (tab1Register (fun _ => [[2]]) ⟨[], []⟩
        ⟨"Alice", "A1", "a@b.c", "0123456789", some [1]⟩).state.known_metadata
        = [] ++ [⟨"Alice", "A1", "a@b.c", "0123456789"⟩]
    ∧ (tab1Register (fun _ => [[2]]) ⟨[], []⟩
        ⟨"Alice", "A1", "a@b.c", "0123456789", some [1]⟩).state.known_faces.length
        = List.length ([] : List Embedding) + 1
    ∧ (tab1Register (fun _ => [[2]]) ⟨[], []⟩
        ⟨"Alice", "A1", "a@b.c", "0123456789", some [1]⟩).state.known_metadata.length
        = List.length ([] : List Identity) + 1
    ∧ (tab1Register (fun _ => [[2]]) ⟨[], []⟩
        ⟨"Alice", "A1", "a@b.c", "0123456789", some [1]⟩).persisted
        = some (tab1Register (fun _ => [[2]]) ⟨[], []⟩
            ⟨"Alice", "A1", "a@b.c", "0123456789", some [1]⟩).state
    ∧ (tab1Register (fun _ => [[2]]) ⟨[], []⟩
        ⟨"Alice", "A1", "a@b.c", "0123456789", some [1]⟩).result
        = RegResult.success "Alice" :=
  register_valid_appends_one (fun _ => [[2]]) ⟨[], []⟩
    ⟨"Alice", "A1", "a@b.c", "0123456789", some [1]⟩ [1] [2] []
    (by unfold validFields; decide) rfl rfl

/-- The gallery invariant: the encodings list and the metadata list have equal
length, so every embedding index has exactly one identity. -/
def galleryInv (st : GalleryState) : Prop :=
  st.known_faces.length = st.known_metadata.length

/-- C9: loading preserves the paired-lengths invariant (a missing file yields
two empty lists), every registration outcome preserves it, and anything the
registration handler persists satisfies it. -/
theorem gallery_lengths_aligned (file : Option GalleryState)
    (face_encodings : Image → List Embedding) (st : GalleryState) (inp : RegInput)
    (hfile : ∀ s, file = some s → galleryInv s) (hst : galleryInv st) :
    galleryInv (loadGallery file)
    ∧ galleryInv (tab1Register face_encodings st inp).state
    ∧ (∀ p, (tab1Register face_encodings st inp).persisted = some p → galleryInv p) := by
  refine ⟨?_, ?_, ?_⟩
  · cases file with
    | none => simp [loadGallery, galleryInv]
    | some s => exact hfile s rfl
  · unfold tab1Register
    repeat' split
    all_goals simp_all [galleryInv]
  · intro p hp
    unfold tab1Register at hp
    repeat' split at hp
    all_goals try simp_all [galleryInv]
    all_goals (subst hp; simp [galleryInv, hst])

/-- Witness for C9: missing file, then a registration on the empty gallery. -/
theorem gallery_lengths_aligned_witness :
    galleryInv (loadGallery none)
    ∧ galleryInv (tab1Register (fun _ => [[2]]) ⟨[], []⟩
        ⟨"Alice", "A1", "a@b.c", "0123456789", some [1]⟩).state
    ∧ (∀ p, (tab1Register (fun _ => [[2]]) ⟨[], []⟩
        ⟨"Alice", "A1", "a@b.c", "0123456789", some [1]⟩).persisted = some p →
        galleryInv p) :=
  gallery_lengths_aligned none (fun _ => [[2]])
    ⟨[], []⟩ ⟨"Alice", "A1", "a@b.c", "0123456789", some [1]⟩
    (fun s h => by cases h) (by simp [galleryInv])

/-- C7 counterexample: an image in which TWO faces are detected is not
rejected — the registration handler consumes `encodings[0]`, reports success
and mutates (and persists) the gallery, contradicting the claim that
multiple-face images are rejected with no state mutated. -/
theorem multi_face_not_rejected :
    (tab1Register (fun _ => [[1], [2]]) ⟨[], []⟩
        ⟨"Alice", "A1", "a@b.c", "0123456789", some [1]⟩).result
      = RegResult.success "Alice"
    ∧ (tab1Register (fun _ => [[1], [2]]) ⟨[], []⟩
        ⟨"Alice", "A1", "a@b.c", "0123456789", some [1]⟩).state
      ≠ (⟨[], []⟩ : GalleryState)
    ∧ (tab1Register (fun _ => [[1], [2]]) ⟨[], []⟩
        ⟨"Alice", "A1", "a@b.c", "0123456789", some [1]⟩).persisted ≠ none := by
  refine ⟨?_, ?_, ?_⟩ <;> decide

/-- C7 (amended): zero detected faces is a detection failure — the gallery is
unchanged, nothing is persisted, and (for otherwise-valid input) the "No face
detected" error is reported; the check-in matcher likewise reports a detection
failure on zero encodings. When one or more faces are detected only the first
encoding is consumed: the match result for `e :: es` equals the result for
`[e]` alone, so multiple-face images are NOT rejected. -/
theorem face_handling_amended (face_encodings : Image → List Embedding)
    (st : GalleryState) (inp : RegInput) (img : Image)
    (dist : Embedding → Embedding → ℚ) (known_faces : List Embedding)
    (known_metadata : List Identity) (e : Embedding) (es : List Embedding)
    (himg : inp.reg_img = some img) (hzero : face_encodings img = []) :
    (tab1Register face_encodings st inp).state = st
    ∧ (tab1Register face_encodings st inp).persisted = none
    ∧ (validFields inp → (tab1Register face_encodings st inp).result
        = RegResult.errorNoFace)
    ∧ tab2Match dist known_faces known_metadata [] = MatchResult.noFaceDetected
    ∧ tab2Match dist known_faces known_metadata (e :: es)
        = tab2Match dist known_faces known_metadata [e] := by
  refine ⟨?_, ?_, ?_, rfl, rfl⟩
  · unfold tab1Register
    repeat' split
    all_goals simp_all
  · unfold tab1Register
    repeat' split
    all_goals simp_all
  · intro hv
    obtain ⟨h1, h2, h3, h4, h5, h6, h7, h8, h9⟩ := hv
    simp only [tab1Register, himg, hzero]
    rw [if_neg (by simp [h1, h2, h3, h4]), if_neg (by simp [h5, h6]),
      if_neg (by simp [h7]; omega)]

/-- Witness for the amended C7: an extractor detecting no face leaves the
gallery untouched. -/
theorem face_handling_amended_witness :
    (tab1Register (fun _ => []) ⟨[], []⟩
        ⟨"Alice", "A1", "a@b.c", "0123456789", some [1]⟩).state = (⟨[], []⟩ : GalleryState)
    ∧ (tab1Register (fun _ => []) ⟨[], []⟩
        ⟨"Alice", "A1", "a@b.c", "0123456789", some [1]⟩).persisted = none
    ∧ (validFields ⟨"Alice", "A1", "a@b.c", "0123456789", some [1]⟩ →
        (tab1Register (fun _ => []) ⟨[], []⟩
          ⟨"Alice", "A1", "a@b.c", "0123456789", some [1]⟩).result = RegResult.errorNoFace)
    ∧ tab2Match (fun _ _ => 0) [] [] [] = MatchResult.noFaceDetected
    ∧ tab2Match (fun _ _ => 0) [] [] ([0] :: [[1]])
        = tab2Match (fun _ _ => 0) [] [] [[0]] :=
  face_handling_amended (fun _ => []) ⟨[], []⟩
    ⟨"Alice", "A1", "a@b.c", "0123456789", some [1]⟩ [1]
    (fun _ _ => 0) [] [] [0] [[1]] rfl rfl

/- ### Class-folder registry (bootstrap, add, remove) -/

/-- An opaque Drive folder identifier. -/
abbrev FolderId := ℕ

/-- The `class_folders` mapping (class name → folder id), modelled as an
association list in insertion order (Python dicts preserve it). -/
abbrev ClassFolders := List (String × FolderId)

/-- Python's `cls in class_folders` key-membership test. -/
def hasKey (m : ClassFolders) (k : String) : Bool := m.any (fun p => p.1 == k)

/-- One iteration of the bootstrap loop (app.py lines 54–64): if the default
class name is absent, create a Drive folder (one `storage_factory` call,
indexed by the running call count) and record the mapping. -/
def bootstrapStep (storage_factory : ℕ → FolderId) (acc : ClassFolders × ℕ)
    (cls : String) : ClassFolders × ℕ :=
  if hasKey acc.1 cls then acc
  else (acc.1 ++ [(cls, storage_factory acc.2)], acc.2 + 1)

/-- The bootstrap block (app.py lines 54–67): reconcile the loaded mapping with
the default class list, returning the new mapping and the number of
storage-factory (Drive `files().create`) invocations made. -/
def bootstrap (storage_factory : ℕ → FolderId) (defaults : List String)
    (class_folders : ClassFolders) : ClassFolders × ℕ :=
  defaults.foldl (bootstrapStep storage_factory) (class_folders, 0)

theorem hasKey_iff_mem (m : ClassFolders) (k : String) :
    hasKey m k = true ↔ k ∈ m.map Prod.fst := by
  simp only [hasKey, List.any_eq_true, beq_iff_eq, List.mem_map]

theorem bootstrapStep_preserves (f : ℕ → FolderId) (acc : ClassFolders × ℕ)
    (c k : String) (h : hasKey acc.1 k = true) :
    hasKey (bootstrapStep f acc c).1 k = true := by
  unfold bootstrapStep
  split
  · exact h
  · simp only [hasKey, List.any_append] at h ⊢
    simp [h]

theorem bootstrapStep_adds (f : ℕ → FolderId) (acc : ClassFolders × ℕ) (c : String) :
    hasKey (bootstrapStep f acc c).1 c = true := by
  unfold bootstrapStep
  split
  · assumption
  · simp [hasKey, List.any_append]

theorem bootstrap_foldl_preserves (f : ℕ → FolderId) (ds : List String)
    (acc : ClassFolders × ℕ) (k : String) (h : hasKey acc.1 k = true) :
    hasKey ((ds.foldl (bootstrapStep f) acc)).1 k = true := by
  induction ds generalizing acc with
  | nil => exact h
  | cons d ds ih => exact ih _ (bootstrapStep_preserves f acc d k h)

/-- After bootstrap, every default class name has a mapping. -/
theorem bootstrap_covers (f : ℕ → FolderId) (ds : List String)
    (acc : ClassFolders × ℕ) (c : String) (hc : c ∈ ds) :
    hasKey ((ds.foldl (bootstrapStep f) acc)).1 c = true := by
  induction ds generalizing acc with
  | nil => cases hc
  | cons d ds ih =>
    rcases List.mem_cons.mp hc with h | h
    · subst h
      exact bootstrap_foldl_preserves f ds _ c (bootstrapStep_adds f acc c)
    · exact ih (bootstrapStep f acc d) h

/-- Bootstrap over names that are all already present is a no-op with zero
factory calls. -/
theorem bootstrap_noop (f : ℕ → FolderId) (ds : List String) (m : ClassFolders)
    (cnt : ℕ) (h : ∀ c ∈ ds, hasKey m c = true) :
    ds.foldl (bootstrapStep f) (m, cnt) = (m, cnt) := by
  induction ds with
  | nil => rfl
  | cons d ds ih =>
    rw [List.foldl_cons]
    have hstep : bootstrapStep f (m, cnt) d = (m, cnt) := by
      unfold bootstrapStep
      rw [if_pos (h d (List.mem_cons_self d ds))]
    rw [hstep]
    exact ih (fun c hc => h c (List.mem_cons_of_mem d hc))

/-- Bootstrap never introduces a duplicate key. -/
theorem bootstrap_foldl_nodup (f : ℕ → FolderId) (ds : List String)
    (acc : ClassFolders × ℕ) (h : (acc.1.map Prod.fst).Nodup) :
    (((ds.foldl (bootstrapStep f) acc)).1.map Prod.fst).Nodup := by
  induction ds generalizing acc with
  | nil => exact h
  | cons d ds ih =>
    rw [List.foldl_cons]
    apply ih
    unfold bootstrapStep
    split
    · exact h
    · rename_i hk
      have hd : d ∉ acc.1.map Prod.fst := fun hmem => hk ((hasKey_iff_mem acc.1 d).mpr hmem)
      simp [List.nodup_append, h, hd]

/-- C4: running bootstrap a second time with the same default list, starting
from the mapping the first run produced, returns that mapping unchanged with
zero storage-factory invocations (for ANY second-run factory), the key set
stays duplicate-free, and every already-present name keeps its mapping. -/
theorem bootstrap_idempotent (f g : ℕ → FolderId) (defaults : List String)
    (m0 : ClassFolders) (hnd : (m0.map Prod.fst).Nodup) :
    bootstrap g defaults (bootstrap f defaults m0).1 = ((bootstrap f defaults m0).1, 0)
    ∧ ((bootstrap f defaults m0).1.map Prod.fst).Nodup
    ∧ ∀ k, List.lookup k (bootstrap g defaults (bootstrap f defaults m0).1).1
        = List.lookup k (bootstrap f defaults m0).1 := by
  have hcov : ∀ c ∈ defaults, hasKey (bootstrap f defaults m0).1 c = true :=
    fun c hc => bootstrap_covers f defaults (m0, 0) c hc
  have hsecond : bootstrap g defaults (bootstrap f defaults m0).1
      = ((bootstrap f defaults m0).1, 0) :=
    bootstrap_noop g defaults (bootstrap f defaults m0).1 0 hcov
  refine ⟨hsecond, ?_, ?_⟩
  · exact bootstrap_foldl_nodup f defaults (m0, 0) hnd
  · intro k
    rw [hsecond]

/-- Witness for C4: bootstrapping two classes from an empty registry, then
re-running with a different factory. -/
theorem bootstrap_idempotent_witness :
    bootstrap (fun n => n + 100) ["a", "b"] (bootstrap id ["a", "b"] []).1
      = ((bootstrap id ["a", "b"] []).1, 0)
    ∧ ((bootstrap id ["a", "b"] []).1.map Prod.fst).Nodup
    ∧ ∀ k, List.lookup k (bootstrap (fun n => n + 100) ["a", "b"]
          (bootstrap id ["a", "b"] []).1).1
        = List.lookup k (bootstrap id ["a", "b"] []).1 :=
  bootstrap_idempotent id (fun n => n + 100) ["a", "b"] [] (by simp)

/-- Python's `str.strip()` with no argument: remove leading and trailing
whitespace characters. -/
def pyStrip (s : String) : String :=
  String.mk (((s.data.dropWhile Char.isWhitespace).reverse.dropWhile
    Char.isWhitespace).reverse)

/-- A string of only whitespace (or empty) strips to the empty string. -/
theorem pyStrip_of_all_whitespace (s : String)
    (h : ∀ c ∈ s.data, c.isWhitespace = true) : pyStrip s = "" := by
  unfold pyStrip
  rw [List.dropWhile_eq_nil_iff.mpr h]
  rfl

/-- Outcome message of the admin Add Class handler (app.py lines 174–191). -/
inductive AddClassResult where
  | emptyName
  | alreadyExists
  | added (name : String)
deriving Repr, DecidableEq

/-- Result of one Add Class interaction: the message, the mapping afterwards,
the number of Drive folder-creation calls, and what (if anything) was written
to `class_folders.pkl`. -/
structure AddClassOutcome where
  result : AddClassResult
  class_folders : ClassFolders
  factory_calls : ℕ
  persisted : Option ClassFolders
deriving Repr, DecidableEq

/-- The admin Add Class handler (app.py lines 174–191): an empty-after-strip
name is rejected; an existing name is rejected; otherwise one folder is
created, the mapping is extended and the whole mapping is pickled. -/
def tab3AddClass (storage_factory : ℕ → FolderId) (class_folders : ClassFolders)
    (new_class : String) : AddClassOutcome :=
  if pyStrip new_class = "" then
    ⟨.emptyName, class_folders, 0, none⟩
  else if hasKey class_folders new_class then
    ⟨.alreadyExists, class_folders, 0, none⟩
  else
    let folders' := class_folders ++ [(new_class, storage_factory 0)]
    ⟨.added new_class, folders', 1, some folders'⟩

/-- C10: a class name that is empty or all whitespace is rejected: the
registry is unchanged, no storage location is created, and no file is
rewritten. -/
theorem add_class_blank_rejected (storage_factory : ℕ → FolderId)
    (class_folders : ClassFolders) (new_class : String)
    (h : ∀ c ∈ new_class.data, c.isWhitespace = true) :
    (tab3AddClass storage_factory class_folders new_class).result
      = AddClassResult.emptyName
    ∧ (tab3AddClass storage_factory class_folders new_class).class_folders
      = class_folders
    ∧ (tab3AddClass storage_factory class_folders new_class).factory_calls = 0
    ∧ (tab3AddClass storage_factory class_folders new_class).persisted = none := by
  unfold tab3AddClass
  rw [if_pos (pyStrip_of_all_whitespace new_class h)]
  exact ⟨rfl, rfl, rfl, rfl⟩

/-- Witness for C10: a name of two spaces against a one-class registry. -/
theorem add_class_blank_rejected_witness :
    (tab3AddClass (fun _ => 7) [("MATH", 3)] "  ").result = AddClassResult.emptyName
    ∧ (tab3AddClass (fun _ => 7) [("MATH", 3)] "  ").class_folders = [("MATH", 3)]
    ∧ (tab3AddClass (fun _ => 7) [("MATH", 3)] "  ").factory_calls = 0
    ∧ (tab3AddClass (fun _ => 7) [("MATH", 3)] "  ").persisted = none :=
  add_class_blank_rejected (fun _ => 7) [("MATH", 3)] "  " (by decide)

/- ### Attendance ledger write path -/

/-- One spreadsheet row. -/
abbrev Row := List String

/-- The fixed header row created with a fresh worksheet (app.py line 149). -/
def HEADER_ROW : Row :=
  ["Timestamp", "Name", "Student ID", "Email", "Phone", "Class", "Status", "Image URL"]

/-- The data row appended on a successful check-in (app.py lines 151–160). -/
def attendanceRow (timestamp : String) (matched : Identity) (selected_class : String)
    (file_url : String) : Row :=
  [timestamp, matched.name, matched.student_id, matched.email, matched.phone,
    selected_class, "Present", file_url]

/-- The worksheet write path of the tab-2 handler (app.py lines 145–160): try
to open the class's worksheet; on `WorksheetNotFound` create it and append the
fixed header row; then append exactly one data row. `none` models a worksheet
that does not exist. -/
def submitToSheet (worksheet : Option (List Row)) (timestamp : String)
    (matched : Identity) (selected_class : String) (file_url : String) : List Row :=
  let sheet :=
    match worksheet with
    | some rows => rows
    | none => [] ++ [HEADER_ROW]
  sheet ++ [attendanceRow timestamp matched selected_class file_url]

/-- C5: for every accepted check-in (the matcher returned an identity), the
write path appends exactly one row carrying the matched identity's fields and
status "Present": an existing worksheet gains exactly that one row at the end,
and a missing worksheet is created with the fixed header row placed before the
single data row. -/
theorem submit_appends_one_row (dist : Embedding → Embedding → ℚ)
    (known_faces : List Embedding) (known_metadata : List Identity)
    (encodings : List Embedding) (worksheet : Option (List Row))
    (timestamp selected_class file_url : String) (matched : Identity) (d : ℚ)
    (hacc : tab2Match dist known_faces known_metadata encodings
      = MatchResult.accepted matched d) :
    (∀ rows, worksheet = some rows →
        submitToSheet worksheet timestamp matched selected_class file_url
          = rows ++ [attendanceRow timestamp matched selected_class file_url])
    ∧ (worksheet = none →
        submitToSheet worksheet timestamp matched selected_class file_url
          = [HEADER_ROW, attendanceRow timestamp matched selected_class file_url])
    ∧ attendanceRow timestamp matched selected_class file_url
        = [timestamp, matched.name, matched.student_id, matched.email,
            matched.phone, selected_class, "Present", file_url] := by
  refine ⟨?_, ?_, rfl⟩
  · intro rows hrows
    rw [hrows]
    rfl
  · intro hnone
    rw [hnone]
    rfl

/-- Witness for C5: a concrete accepted check-in written both to a missing
worksheet and to a worksheet holding only the header. -/
theorem submit_appends_one_row_witness :
    (submitToSheet (some [HEADER_ROW]) "2024-01-01 08:00:00"
        ⟨"Alice", "A1", "a@b.c", "0123456789"⟩ "MATH" "http://x"
      = [HEADER_ROW] ++ [attendanceRow "2024-01-01 08:00:00"
          ⟨"Alice", "A1", "a@b.c", "0123456789"⟩ "MATH" "http://x"])
    ∧ (submitToSheet none "2024-01-01 08:00:00"
        ⟨"Alice", "A1", "a@b.c", "0123456789"⟩ "MATH" "http://x"
      = [HEADER_ROW, attendanceRow "2024-01-01 08:00:00"
          ⟨"Alice", "A1", "a@b.c", "0123456789"⟩ "MATH" "http://x"]) := by
  have h1 := submit_appends_one_row (fun _ _ => 1 / 10) [[0]]
    [⟨"Alice", "A1", "a@b.c", "0123456789"⟩] [[0]] (some [HEADER_ROW])
    "2024-01-01 08:00:00" "MATH" "http://x" ⟨"Alice", "A1", "a@b.c", "0123456789"⟩
    (1 / 10) (by norm_num [tab2Match, faceDistances, pyMin, THRESHOLD])
  have h2 := submit_appends_one_row (fun _ _ => 1 / 10) [[0]]
    [⟨"Alice", "A1", "a@b.c", "0123456789"⟩] [[0]] none
    "2024-01-01 08:00:00" "MATH" "http://x" ⟨"Alice", "A1", "a@b.c", "0123456789"⟩
    (1 / 10) (by norm_num [tab2Match, faceDistances, pyMin, THRESHOLD])
  exact ⟨h1.1 [HEADER_ROW] rfl, h2.2.1 rfl⟩

/- ### Dashboard / CSV export read path -/

/-- `worksheet.get_all_records()`: the first row is taken as the header and
the remaining rows become the records; an empty worksheet yields no records. -/
def get_all_records (rows : List Row) : List Row :=
  match rows with
  | [] => []
  | _header :: records => records

/-- `get_class_data` (app.py lines 70–77): a `WorksheetNotFound` (here `none`)
yields an empty DataFrame, indistinguishable from an existing worksheet with
no data rows. -/
def get_class_data (worksheet : Option (List Row)) : List Row :=
  match worksheet with
  | none => []
  | some rows => get_all_records rows

/-- `df['Timestamp'].str.startswith(str(date))`: the first column of the row
starts with the date string (prefix test on the character sequences). -/
def rowMatchesDate (date : String) (r : Row) : Bool :=
  date.data.isPrefixOf (r.headD "").data

/-- Outcome of the tab-3 Download CSV handler, one constructor per branch
(app.py lines 229–240). -/
inductive DownloadResult where
  | noClassData
  | noDateData
  | csv (rows : List Row)
deriving Repr, DecidableEq

/-- The tab-3 Download CSV handler (app.py lines 229–240): an empty DataFrame
is reported as "No attendance data for selected class"; otherwise rows are
filtered by date, an empty filter result is reported as "No data for selected
date", and otherwise the filtered rows are rendered as CSV. -/
def tab3DownloadCSV (worksheet : Option (List Row)) (download_date : String) :
    DownloadResult :=
  let df := get_class_data worksheet
  if df = [] then .noClassData
  else
    let filtered := df.filter (rowMatchesDate download_date)
    if filtered = [] then .noDateData
    else .csv filtered

/-- C8 counterexample: a worksheet that EXISTS but holds only its header row
has zero rows matching any date, yet the handler reports exactly the same
outcome as for a worksheet that does not exist at all — the two cases are not
reported distinctly. -/
theorem csv_empty_sheet_not_distinct :
    tab3DownloadCSV (some [HEADER_ROW]) "2024-01-01"
      = tab3DownloadCSV none "2024-01-01"
    ∧ tab3DownloadCSV none "2024-01-01" = DownloadResult.noClassData := by
  exact ⟨rfl, rfl⟩

/-- C8 (amended): when the worksheet exists and holds at least one data row
but none matching the date, the export reports "No data for selected date",
which IS distinct from the missing-worksheet report ("No attendance data for
selected class"); a worksheet with zero data rows, however, is reported
exactly like a missing worksheet. -/
theorem csv_date_empty_distinct_when_rows (header : Row) (records : List Row)
    (date : String) (hne : records ≠ [])
    (hnomatch : records.filter (rowMatchesDate date) = []) :
    tab3DownloadCSV (some (header :: records)) date = DownloadResult.noDateData
    ∧ tab3DownloadCSV none date = DownloadResult.noClassData
    ∧ DownloadResult.noDateData ≠ DownloadResult.noClassData := by
  refine ⟨?_, rfl, by simp⟩
  unfold tab3DownloadCSV
  simp only [get_class_data, get_all_records]
  rw [if_neg hne, if_pos hnomatch]

/-- Witness for the amended C8: one data row from 2023 queried for a 2024
date. -/
theorem csv_date_empty_distinct_when_rows_witness :
    tab3DownloadCSV (some [HEADER_ROW, ["2023-05-01 08:00:00", "Alice"]]) "2024-01-01"
      = DownloadResult.noDateData
    ∧ tab3DownloadCSV none "2024-01-01" = DownloadResult.noClassData
    ∧ DownloadResult.noDateData ≠ DownloadResult.noClassData :=
  csv_date_empty_distinct_when_rows HEADER_ROW [["2023-05-01 08:00:00", "Alice"]]
    "2024-01-01" (by simp) (by decide)
